import Mathlib

/-!
Verification of the movies search/pagination coordinator (MoviesStore) and its
pagination view binding.

The store composes three reactive pipelines over a remote paged search client:
a debounced, validity-filtered fresh-search pipeline, an independent load-more
pipeline, and an error pipeline.  Pure getters (totalPages, currentPages,
pagesToPickFrom, movies, ...) are derived from the loaded window of result
pages.  This development embeds the getters as pure functions over the window
and the reactive pipelines as a state machine over discrete events.  Each
synchronous emission cascade of one event is compressed into one atomic
transition; combineLatest re-emissions inside a single synchronous cascade are
compressed to the final emission, which is the one request that switchMap
leaves subscribed (transient same-instant inner subscriptions are cancelled
synchronously, before any response can arrive, so they never deliver a value).
-/

/-- Tag of a search error, mirroring the MovieSearchErrorType const enum. -/
inductive MovieSearchErrorType where
  | BadInput
  | ServerError
deriving DecidableEq, Repr

/-- Search error record: a tag plus a user-facing message. -/
structure MovieSearchError where
  type : MovieSearchErrorType
  message : String
deriving DecidableEq, Repr

/-- Minimal query length for a remote search, mirroring MIN_CHARACTERS_FOR_SEARCH. -/
def MIN_CHARACTERS_FOR_SEARCH : Nat := 3

/-- Fixed server-error value, mirroring the SERVER_ERROR constant. -/
def SERVER_ERROR : MovieSearchError :=
  { type := MovieSearchErrorType.ServerError
    message := "Oops, something went wrong. Please try again later." }

/-- Message of the BadInput error, mirroring the template literal
interpolating MIN_CHARACTERS_FOR_SEARCH. -/
def badInputMessage : String :=
  "Please enter at least " ++ Nat.repr MIN_CHARACTERS_FOR_SEARCH ++ " characters"

/-- The BadInput error value produced by the error pipeline. -/
def badInputError : MovieSearchError :=
  { type := MovieSearchErrorType.BadInput, message := badInputMessage }

/-- Whitespace stripping on a character list: drop whitespace from the front,
then from the back. -/
def trimChars (l : List Char) : List Char :=
  ((l.dropWhile Char.isWhitespace).reverse.dropWhile Char.isWhitespace).reverse

/-- The JavaScript String.prototype.trim operation the source calls: the
string with leading and trailing whitespace removed. -/
def jsTrim (q : String) : String :=
  String.mk (trimChars q.data)

/-- Validity filter, mirroring isQueryValid:
query.trim().length is at least MIN_CHARACTERS_FOR_SEARCH. -/
def isQueryValid (q : String) : Bool :=
  decide (MIN_CHARACTERS_FOR_SEARCH ≤ (jsTrim q).length)

/-- Modelled from the spec: an Item (a movie record) is opaque to the
coordinator, so it is modelled by an opaque identifier. -/
abbrev Movie : Type := Nat

/-- Modelled from the spec: a ResultPage as returned by the remote client,
with the field names the store reads (page, totalPages, movies). -/
structure MoviesPage where
  page : Int
  totalPages : Int
  movies : List Movie
deriving DecidableEq, Repr

/-- Getter currentPages: the page numbers of the loaded window, in window order. -/
def currentPages (w : List MoviesPage) : List Int :=
  w.map (fun r => r.page)

/-- Getter totalPages: totalPages of the first loaded page, or 0 when the
window is empty (the nullish coalescing fallback). -/
def totalPages (w : List MoviesPage) : Int :=
  ((w.head?).map (fun r => r.totalPages)).getD 0

/-- Getter firstOfCurrentPages: first page number, undefined (none) when empty. -/
def firstOfCurrentPages (w : List MoviesPage) : Option Int :=
  (currentPages w).head?

/-- Getter lastOfCurrentPages: last page number, undefined (none) when empty. -/
def lastOfCurrentPages (w : List MoviesPage) : Option Int :=
  (currentPages w).getLast?

/-- Getter movies: the flattened concatenation of the window pages in order. -/
def movies (w : List MoviesPage) : List Movie :=
  (w.map (fun r => r.movies)).flatten

/-- One step of first-occurrence deduplication with an accumulator of already
seen values.  A JavaScript Set keeps the first occurrence of each member and
preserves insertion order, and treats NaN as equal to NaN (SameValueZero). -/
def dedupFirstAux {α : Type} [DecidableEq α] (seen : List α) : List α → List α
  | [] => []
  | a :: l => if a ∈ seen then dedupFirstAux seen l else a :: dedupFirstAux (a :: seen) l

/-- First-occurrence deduplication, the order-preserving semantics of
building a JavaScript Set from a list and converting it back to an array. -/
def dedupFirst {α : Type} [DecidableEq α] (l : List α) : List α :=
  dedupFirstAux [] l

/-- JavaScript numbers appearing in the pagination candidates: some n is an
ordinary number, none stands for NaN (arithmetic on the undefined boundary of
an empty window).  Any comparison against NaN is false. -/
def jsInRange (t : Int) : Option Int → Bool
  | none => false
  | some p => decide (0 < p) && decide (p ≤ t)

/-- Candidate page numbers, in the exact insertion order of the Set literal in
pagesToPickFrom: 1, 2, lowest minus 2, lowest minus 1, the current pages,
highest plus 1, highest plus 2, totalPages minus 1, totalPages.  With an empty
window the boundary reads are undefined and their arithmetic yields NaN (none). -/
def pageCandidates (w : List MoviesPage) : List (Option Int) :=
  [some 1, some 2,
   ((currentPages w).head?).map (fun x => x - 2),
   ((currentPages w).head?).map (fun x => x - 1)]
  ++ (currentPages w).map some
  ++ [((currentPages w).getLast?).map (fun x => x + 1),
      ((currentPages w).getLast?).map (fun x => x + 2),
      some (totalPages w - 1), some (totalPages w)]

/-- Getter pagesToPickFrom: the Set of candidates (first-occurrence
deduplication, insertion order) filtered to the pages that are positive and at
most totalPages.  The surviving entries are ordinary numbers, unwrapped at the end. -/
def pagesToPickFrom (w : List MoviesPage) : List Int :=
  (((dedupFirst (pageCandidates w)).filter (jsInRange (totalPages w))).filterMap id)

/-- The value the specification text describes for pagesToPickFrom: the same
deduplicated, range-filtered candidate set, but sorted ascending. -/
def pagesToPickFromSpec (w : List MoviesPage) : List Int :=
  List.insertionSort (fun a b => a ≤ b) (pagesToPickFrom w)

/-- State of the MoviesStore coordinator.  The window, error, and flags are
the observable state; the remaining fields embed the latched latest values of
the reactive sources, the active switchMap request of each remote pipeline,
the liveness of each remote subscription (an rxjs subscription terminates for
good when its stream errors; no catchError is installed, so a failing inner
search observable kills the whole pipeline), the scheduled delayed BadInput,
and a trace of the remote calls issued and of the log lines written. -/
structure StoreState where
  window : List MoviesPage
  error : Option MovieSearchError
  noResultsFound : Bool
  lastRaw : Option String
  lastValid : Option String
  lastPage : Int
  moreArmed : Bool
  freshAlive : Bool
  moreAlive : Bool
  freshReq : Option (String × Int)
  moreReq : Option (String × Int)
  pendingBadInput : Bool
  calls : List (String × Int)
  log : List String
deriving DecidableEq, Repr

/-- State of the store right after construction: empty window, no error, the
page source primed to 1 by startWith, both remote pipelines subscribed. -/
def initState : StoreState :=
  { window := []
    error := none
    noResultsFound := false
    lastRaw := none
    lastValid := none
    lastPage := 1
    moreArmed := false
    freshAlive := true
    moreAlive := true
    freshReq := none
    moreReq := none
    pendingBadInput := false
    calls := []
    log := [] }

/-- Discrete events driving the store: raw raises the searchForString subject
(every keystroke), commit is the debounced searchInput emission 500ms after
the last keystroke, page is setCurrentPage, more is loadMore, the four
response events deliver success or failure of the remote call identified by
its (query, page) pair, and badFire is the 500ms BadInput delay elapsing. -/
inductive Ev where
  | raw (q : String)
  | commit (q : String)
  | page (n : Int)
  | more
  | freshOk (q : String) (n : Int) (p : MoviesPage)
  | freshErr (q : String) (n : Int)
  | moreOk (q : String) (n : Int) (p : MoviesPage)
  | moreErr (q : String) (n : Int)
  | badFire
deriving DecidableEq, Repr

/-- One transition of the coordinator.  Each branch is read off the
corresponding pipeline of the MoviesStore constructor:
raw updates the first source of the load-more combineLatest, which re-emits
once loadMore has been called at least once;
commit runs the shared searchInput cascade: the validity filter feeds the
first source of the fresh combineLatest, the map-to-1 branch feeds its second
source (on every commit, valid or not), and the error switchMap clears the
error at once on an empty or valid commit and otherwise schedules a delayed
BadInput; the durable fresh request of the cascade is (latest valid query, 1);
page pushes into loadPage, emitting (latest valid query, n) when one exists;
more arms and fires the load-more combineLatest with the latest raw query and
page (lastOfCurrentPages or 1) plus 1, read at emission time;
a response event is applied only when its pipeline is alive and it matches
the active request of that pipeline (switch semantics discard the rest);
a failure response sets SERVER_ERROR through the serverError subject, writes
a log line, and terminates the erroring subscription for good. -/
def storeStep (s : StoreState) : Ev → StoreState
  | Ev.raw q =>
    if s.moreAlive = true ∧ s.moreArmed = true then
      { s with lastRaw := some q
               moreReq := some (q, (lastOfCurrentPages s.window).getD 1 + 1)
               calls := s.calls ++ [(q, (lastOfCurrentPages s.window).getD 1 + 1)] }
    else
      { s with lastRaw := some q }
  | Ev.commit q =>
    let s1 :=
      if s.freshAlive = true then
        match (if isQueryValid q = true then some q else s.lastValid) with
        | some q0 =>
          { s with lastValid := if isQueryValid q = true then some q else s.lastValid
                   lastPage := 1
                   freshReq := some (q0, 1)
                   calls := s.calls ++ [(q0, 1)] }
        | none => { s with lastValid := s.lastValid, lastPage := 1 }
      else s
    if q.length = 0 ∨ isQueryValid q = true then
      { s1 with error := none, pendingBadInput := false }
    else
      { s1 with pendingBadInput := true }
  | Ev.page n =>
    if s.freshAlive = true then
      match s.lastValid with
      | some q0 =>
        { s with lastPage := n
                 freshReq := some (q0, n)
                 calls := s.calls ++ [(q0, n)] }
      | none => { s with lastPage := n }
    else s
  | Ev.more =>
    if s.moreAlive = true then
      match s.lastRaw with
      | some q =>
        { s with moreArmed := true
                 moreReq := some (q, (lastOfCurrentPages s.window).getD 1 + 1)
                 calls := s.calls ++ [(q, (lastOfCurrentPages s.window).getD 1 + 1)] }
      | none => { s with moreArmed := true }
    else s
  | Ev.freshOk q n p =>
    if s.freshAlive = true ∧ s.freshReq = some (q, n) then
      { s with window := [p]
               noResultsFound := p.movies.length == 0
               freshReq := none }
    else s
  | Ev.freshErr q n =>
    if s.freshAlive = true ∧ s.freshReq = some (q, n) then
      { s with freshAlive := false
               freshReq := none
               error := some SERVER_ERROR
               log := s.log ++ ["Failed getting movies: "] }
    else s
  | Ev.moreOk q n p =>
    if s.moreAlive = true ∧ s.moreReq = some (q, n) then
      { s with window := s.window ++ [p], moreReq := none }
    else s
  | Ev.moreErr q n =>
    if s.moreAlive = true ∧ s.moreReq = some (q, n) then
      { s with moreAlive := false
               moreReq := none
               error := some SERVER_ERROR
               log := s.log ++ ["Failed getting more movies for page: "] }
    else s
  | Ev.badFire =>
    if s.pendingBadInput = true then
      { s with error := some badInputError, pendingBadInput := false }
    else s

/-- Run of the coordinator from the freshly constructed store. -/
def runEvents (evs : List Ev) : StoreState :=
  evs.foldl storeStep initState

/-- The selectPage binding of the pagination view: setCurrentPage is invoked
only when the page is positive and at most totalPages. -/
def selectPage (s : StoreState) (p : Int) : StoreState :=
  if 0 < p ∧ p ≤ totalPages s.window then storeStep s (Ev.page p) else s

/-- Semantics of debounceTime over a time-sorted list of stamped inputs: a
value is emitted d after its arrival unless another value arrives strictly
inside that span. -/
def debounceTimed (d : Nat) : List (Nat × String) → List (Nat × String)
  | [] => []
  | (t, q) :: rest =>
    match rest with
    | [] => [(t + d, q)]
    | (t2, _) :: _ =>
      (if t + d ≤ t2 then [(t + d, q)] else []) ++ debounceTimed d rest

/-- Repeated load-more rounds against a deterministic remote client: each
round invokes loadMore and then delivers the successful response of the
request the store has in flight, before the next round begins. -/
def loadMoreRounds (client : String → Int → MoviesPage) (s : StoreState) : Nat → StoreState
  | 0 => s
  | n + 1 =>
    let s1 := storeStep s Ev.more
    let s2 :=
      match s1.moreReq with
      | some (q, p) => storeStep s1 (Ev.moreOk q p (client q p))
      | none => s1
    loadMoreRounds client s2 n

/-- Pages a deterministic client returns for n successive load-more rounds
starting above page k: the pages for k+1, k+2, ..., k+n in order. -/
def expectedPages (client : String → Int → MoviesPage) (q : String) (k : Int) : Nat → List MoviesPage
  | 0 => []
  | n + 1 => client q (k + 1) :: expectedPages client q (k + 1) n

/-- Consecutive integers a, a+1, ..., a+n-1. -/
def pageRange (a : Int) : Nat → List Int
  | 0 => []
  | n + 1 => a :: pageRange (a + 1) n

/-- A concrete remote client used by witnesses: it echoes the requested page
number, with a fixed totalPages and a singleton item list. -/
def clientEx : String → Int → MoviesPage :=
  fun _ m => ⟨m, 9, [5]⟩

/-- A concrete store state used by witnesses: the raw query abc latched and
page 1 loaded. -/
def stateLoaded : StoreState :=
  { initState with lastRaw := some ("abc"), window := [⟨1, 9, [7]⟩] }

/-- A concrete store state used by witnesses: page 1 loaded and a load-more
request for page 2 in flight. -/
def stateReqTwo : StoreState :=
  { initState with moreReq := some ("abc", 2), window := [⟨1, 9, [7]⟩] }

/-- Membership in the first-occurrence deduplication: a value appears exactly
when it appears in the input and was not already seen. -/
theorem mem_dedupFirstAux {α : Type} [DecidableEq α] (l : List α) :
    ∀ (seen : List α) (a : α), a ∈ dedupFirstAux seen l ↔ a ∈ l ∧ a ∉ seen := by
  induction l with
  | nil => intro seen a; simp [dedupFirstAux]
  | cons b l ih =>
    intro seen a
    by_cases hb : b ∈ seen
    · rw [dedupFirstAux, if_pos hb, ih]
      constructor
      · rintro ⟨h1, h2⟩; exact ⟨List.mem_cons_of_mem b h1, h2⟩
      · rintro ⟨h1, h2⟩
        rcases List.mem_cons.mp h1 with h3 | h3
        · exact absurd (h3 ▸ hb) h2
        · exact ⟨h3, h2⟩
    · rw [dedupFirstAux, if_neg hb]
      constructor
      · intro h1
        rcases List.mem_cons.mp h1 with h3 | h3
        · exact ⟨h3 ▸ List.mem_cons_self b l, h3 ▸ hb⟩
        · rcases (ih (b :: seen) a).mp h3 with ⟨h4, h5⟩
          exact ⟨List.mem_cons_of_mem b h4, fun h6 => h5 (List.mem_cons_of_mem b h6)⟩
      · rintro ⟨h1, h2⟩
        by_cases hab : a = b
        · exact hab ▸ List.mem_cons_self b _
        · rcases List.mem_cons.mp h1 with h3 | h3
          · exact absurd h3 hab
          · refine List.mem_cons_of_mem b ((ih (b :: seen) a).mpr ⟨h3, ?_⟩)
            intro h4
            rcases List.mem_cons.mp h4 with h5 | h5
            · exact hab h5
            · exact h2 h5

/-- The first-occurrence deduplication never repeats a value. -/
theorem nodup_dedupFirstAux {α : Type} [DecidableEq α] (l : List α) :
    ∀ seen : List α, (dedupFirstAux seen l).Nodup := by
  induction l with
  | nil => intro seen; simp [dedupFirstAux]
  | cons b l ih =>
    intro seen
    by_cases hb : b ∈ seen
    · rw [dedupFirstAux, if_pos hb]; exact ih seen
    · rw [dedupFirstAux, if_neg hb]
      refine List.nodup_cons.mpr ⟨?_, ih (b :: seen)⟩
      intro hmem
      exact ((mem_dedupFirstAux l (b :: seen) b).mp hmem).2 (List.mem_cons_self b seen)

/-- Claim C1, counterexample: in the window holding the single page 6 whose
totalPages is 4, the getter returns [1, 2, 4, 3], in Set insertion order,
which is not the ascending order the claim states. -/
theorem C1_counterexample :
    pagesToPickFrom [⟨6, 4, []⟩] = [1, 2, 4, 3] ∧
    pagesToPickFromSpec [⟨6, 4, []⟩] = [1, 2, 3, 4] ∧
    pagesToPickFrom [⟨6, 4, []⟩] ≠ pagesToPickFromSpec [⟨6, 4, []⟩] := by decide

/-- Claim C1 (amended): for every window, pagesToPickFrom holds exactly the
candidate pages 1, 2, lowest minus 2, lowest minus 1, the current pages,
highest plus 1, highest plus 2, totalPages minus 1 and totalPages that lie in
the range 1 to totalPages, without duplicates, in first-insertion order of the
candidate sequence rather than sorted ascending; for totalPages 100 and the
window holding page 50 the result is [1, 2, 48, 49, 50, 51, 52, 99, 100]. -/
theorem C1_theorem :
    (∀ w : List MoviesPage,
      (pagesToPickFrom w).Nodup ∧
      (∀ p : Int, p ∈ pagesToPickFrom w ↔
        some p ∈ pageCandidates w ∧ 1 ≤ p ∧ p ≤ totalPages w)) ∧
    pagesToPickFrom [⟨50, 100, []⟩] = [1, 2, 48, 49, 50, 51, 52, 99, 100] := by
  refine ⟨fun w => ⟨?_, fun p => ?_⟩, by decide⟩
  · refine List.Nodup.filterMap ?_ (List.Nodup.filter _ (nodup_dedupFirstAux _ []))
    intro a a' b hb hb'
    have h1 : a = some b := hb
    have h2 : a' = some b := hb'
    rw [h1, h2]
  · rw [pagesToPickFrom, List.mem_filterMap]
    constructor
    · rintro ⟨a, ha, hid⟩
      have h1 : a = some p := hid
      subst h1
      rcases List.mem_filter.mp ha with ⟨h2, h3⟩
      have h4 := ((mem_dedupFirstAux _ [] (some p)).mp h2).1
      simp only [jsInRange, Bool.and_eq_true, decide_eq_true_eq] at h3
      exact ⟨h4, by omega, h3.2⟩
    · rintro ⟨h1, h2, h3⟩
      refine ⟨some p, List.mem_filter.mpr ⟨(mem_dedupFirstAux _ [] (some p)).mpr ⟨h1, by simp⟩, ?_⟩, rfl⟩
      simp only [jsInRange, Bool.and_eq_true, decide_eq_true_eq]
      exact ⟨by omega, h3⟩

/-- Claim C10: with an empty window the boundary candidates are NaN, the
constants 1, 2 exceed totalPages 0, and the range filter removes everything,
so pagesToPickFrom is empty. -/
theorem C10_theorem :
    pagesToPickFrom ([] : List MoviesPage) = [] ∧
    totalPages ([] : List MoviesPage) = 0 ∧
    pageCandidates ([] : List MoviesPage)
      = [some 1, some 2, none, none, none, none, some (-1), some 0] := by decide

/-- Claim C2, counterexample: after a committed valid query whose remote call
fails, the fresh-search subscription has terminated, so a later committed
valid query (here abcd) issues no remote call at all, against the claimed
exactly-one-call guarantee. -/
theorem C2_counterexample :
    (runEvents [Ev.raw ("abc"), Ev.commit ("abc"), Ev.freshErr ("abc") 1,
        Ev.raw ("abcd"), Ev.commit ("abcd")]).calls = [("abc", 1)] ∧
    ("abcd", (1 : Int)) ∉ (runEvents [Ev.raw ("abc"), Ev.commit ("abc"), Ev.freshErr ("abc") 1,
        Ev.raw ("abcd"), Ev.commit ("abcd")]).calls ∧
    isQueryValid ("abcd") = true := by decide

/-- Claim C2 (amended): for every committed valid query, provided the
fresh-search pipeline has not been terminated by an earlier remote failure,
exactly one remote call is issued and it is for the query at page 1; and every
applied successful fresh-search response replaces the window by exactly the
returned page, with noResultsFound true exactly when the page has no items. -/
theorem C2_theorem :
    (∀ (s : StoreState) (q : String),
      s.freshAlive = true → isQueryValid q = true →
        (storeStep s (Ev.commit q)).calls = s.calls ++ [(q, 1)] ∧
        (storeStep s (Ev.commit q)).freshReq = some (q, 1) ∧
        (storeStep s (Ev.commit q)).window = s.window) ∧
    (∀ (s : StoreState) (q : String) (n : Int) (p : MoviesPage),
      s.freshAlive = true → s.freshReq = some (q, n) →
        (storeStep s (Ev.freshOk q n p)).window = [p] ∧
        ((storeStep s (Ev.freshOk q n p)).noResultsFound = true ↔ p.movies.length = 0)) := by
  constructor
  · intro s q ha hv
    simp [storeStep, ha, hv]
  · intro s q n p ha hr
    simp [storeStep, ha, hr]

/-- Claim C2 witness: the amended theorem applied to the initial store and a
concrete valid query and response. -/
theorem C2_witness :
    (storeStep initState (Ev.commit ("abc"))).calls = initState.calls ++ [("abc", 1)] ∧
    (storeStep { initState with freshReq := some ("abc", 1) }
      (Ev.freshOk ("abc") 1 ⟨1, 9, []⟩)).window = [⟨1, 9, []⟩] := by
  exact ⟨(C2_theorem.1 initState ("abc") rfl (by decide)).1,
    (C2_theorem.2 { initState with freshReq := some ("abc", 1) } ("abc") 1 ⟨1, 9, []⟩ rfl rfl).1⟩

/-- Claim C4, counterexample: two setQuery events inside one debounce span
commit only the later text, but when the later text is invalid no remote call
is issued at all (zero, not one); and in a state where loadMore has been used,
every raw keystroke of the pair additionally fires a load-more pipeline call,
so more than one remote call is issued for the pair. -/
theorem C4_counterexample :
    debounceTimed 500 [(0, "abc"), (100, "ab")] = [(600, "ab")] ∧
    (runEvents [Ev.raw ("abc"), Ev.raw ("ab"), Ev.commit ("ab")]).calls = [] ∧
    (runEvents [Ev.raw ("abc"), Ev.commit ("abc"), Ev.more,
        Ev.raw ("abcd"), Ev.raw ("abcdef"), Ev.commit ("abcdef")]).calls
      = [("abc", 1), ("abc", 2), ("abcd", 2), ("abcdef", 2), ("abcdef", 1)] := by decide

/-- Claim C4 (amended): starting from the initial store state, for every pair
of setQuery events within one debounce interval with the later query valid,
only the later query is committed and exactly one remote call is issued, for
the later query text at page 1; and a response not matching the current
in-flight request of the fresh pipeline is never applied to any state. -/
theorem C4_theorem :
    ∀ (t0 t1 : Nat) (q1 q2 : String),
      t1 < t0 + 500 → isQueryValid q2 = true →
        debounceTimed 500 [(t0, q1), (t1, q2)] = [(t1 + 500, q2)] ∧
        (runEvents [Ev.raw q1, Ev.raw q2, Ev.commit q2]).calls = [(q2, 1)] ∧
        (∀ (s : StoreState) (q : String) (n : Int) (p : MoviesPage),
          s.freshReq ≠ some (q, n) → storeStep s (Ev.freshOk q n p) = s) := by
  intro t0 t1 q1 q2 ht hv
  refine ⟨?_, ?_, ?_⟩
  · rw [debounceTimed]
    rw [if_neg (by omega)]
    rfl
  · simp [runEvents, List.foldl, storeStep, hv, initState]
  · intro s q n p hne
    rw [storeStep, if_neg]
    rintro ⟨_, h2⟩
    exact hne h2

/-- Claim C4 witness: the amended theorem applied to the pair abc at time 0
and abcdef at time 100. -/
theorem C4_witness :
    debounceTimed 500 [(0, "abc"), (100, "abcdef")] = [(600, "abcdef")] ∧
    (runEvents [Ev.raw ("abc"), Ev.raw ("abcdef"), Ev.commit ("abcdef")]).calls
      = [("abcdef", 1)] := by
  have h := C4_theorem 0 100 ("abc") ("abcdef") (by omega) (by decide)
  exact ⟨h.1, h.2.1⟩

/-- Claim C5, counterexample: the coordinator itself does not tolerate an
out-of-range page: with a valid query committed and page 1 of 4 loaded,
calling setCurrentPage 0 issues a remote call for page 0, and a successful
response for it replaces the window. -/
theorem C5_counterexample :
    totalPages (runEvents [Ev.raw ("abc"), Ev.commit ("abc"),
        Ev.freshOk ("abc") 1 ⟨1, 4, [10]⟩]).window = 4 ∧
    (runEvents [Ev.raw ("abc"), Ev.commit ("abc"), Ev.freshOk ("abc") 1 ⟨1, 4, [10]⟩,
        Ev.page 0]).calls = [("abc", 1), ("abc", 0)] ∧
    (runEvents [Ev.raw ("abc"), Ev.commit ("abc"), Ev.freshOk ("abc") 1 ⟨1, 4, [10]⟩,
        Ev.page 0, Ev.freshOk ("abc") 0 ⟨0, 4, []⟩]).window = [⟨0, 4, []⟩] := by decide

/-- Claim C5 (amended): the page-selection operation of the view binding
(selectPage) rejects every page below 1 or above totalPages without invoking
the coordinator, so no remote call is issued and the whole store state,
window and totalPages included, is left unchanged; the coordinator level
setCurrentPage performs no such guard. -/
theorem C5_theorem :
    ∀ (s : StoreState) (n : Int),
      n < 1 ∨ totalPages s.window < n → selectPage s n = s := by
  intro s n h
  rw [selectPage, if_neg]
  rintro ⟨h1, h2⟩
  rcases h with h3 | h3 <;> omega

/-- Claim C5 witness: the amended theorem applied to the initial store with
page 0 and to a loaded store with page totalPages plus 1. -/
theorem C5_witness :
    selectPage initState 0 = initState ∧
    selectPage { initState with window := [⟨1, 4, [10]⟩] } 5
      = { initState with window := [⟨1, 4, [10]⟩] } := by
  exact ⟨C5_theorem initState 0 (Or.inl (by decide)),
    C5_theorem { initState with window := [⟨1, 4, [10]⟩] } 5 (Or.inr (by decide))⟩

/-- Claim C6, counterexample: committing the too-short query ab while the
valid query abc is active does trigger a remote search: the map-to-1 branch
of the fresh pipeline fires on every committed input, so a page-1 call for
the previous valid query is issued (the calls trace grows from one to two). -/
theorem C6_counterexample :
    (runEvents [Ev.raw ("abc"), Ev.commit ("abc"), Ev.freshOk ("abc") 1 ⟨1, 4, [10]⟩,
        Ev.raw ("ab")]).calls = [("abc", 1)] ∧
    (runEvents [Ev.raw ("abc"), Ev.commit ("abc"), Ev.freshOk ("abc") 1 ⟨1, 4, [10]⟩,
        Ev.raw ("ab"), Ev.commit ("ab")]).calls = [("abc", 1), ("abc", 1)] ∧
    isQueryValid ("ab") = false ∧ ("ab").length ≠ 0 := by decide

/-- Claim C6 (amended): a committed non-empty invalid query triggers no
remote search for that query itself, leaves the window and the error
unchanged at the commit, and schedules the delayed BadInput error, which on
firing carries the fixed guidance message; however, when a valid query was
previously committed, the commit also re-triggers a page-1 search of that
previous valid query (whose later success replaces the window). -/
theorem C6_theorem :
    ∀ (s : StoreState) (q : String),
      isQueryValid q = false → q.length ≠ 0 →
      (∀ q0 : String, s.lastValid = some q0 → isQueryValid q0 = true) →
        (storeStep s (Ev.commit q)).window = s.window ∧
        (storeStep s (Ev.commit q)).error = s.error ∧
        (storeStep s (Ev.commit q)).pendingBadInput = true ∧
        (storeStep (storeStep s (Ev.commit q)) Ev.badFire).error = some badInputError ∧
        badInputError.message = "Please enter at least 3 characters" ∧
        (∀ c ∈ (storeStep s (Ev.commit q)).calls, c ∈ s.calls ∨ c.1 ≠ q) := by
  intro s q hv h0 hlv
  have hstep : (storeStep s (Ev.commit q)).window = s.window ∧
      (storeStep s (Ev.commit q)).error = s.error ∧
      (storeStep s (Ev.commit q)).pendingBadInput = true ∧
      (∀ c ∈ (storeStep s (Ev.commit q)).calls, c ∈ s.calls ∨ c.1 ≠ q) := by
    by_cases ha : s.freshAlive = true
    · cases hl : s.lastValid with
      | none =>
        refine ⟨by simp [storeStep, ha, hv, h0, hl], by simp [storeStep, ha, hv, h0, hl],
          by simp [storeStep, ha, hv, h0, hl], ?_⟩
        intro c hc
        have hcalls : (storeStep s (Ev.commit q)).calls = s.calls := by
          simp [storeStep, ha, hv, h0, hl]
        exact Or.inl (hcalls ▸ hc)
      | some q0 =>
        have hq0 : isQueryValid q0 = true := hlv q0 hl
        have hne : q0 ≠ q := by
          intro he
          rw [he, hv] at hq0
          exact Bool.false_ne_true hq0
        refine ⟨by simp [storeStep, ha, hv, h0, hl], by simp [storeStep, ha, hv, h0, hl],
          by simp [storeStep, ha, hv, h0, hl], ?_⟩
        intro c hc
        have hcalls : (storeStep s (Ev.commit q)).calls = s.calls ++ [(q0, 1)] := by
          simp [storeStep, ha, hv, h0, hl]
        rw [hcalls] at hc
        rcases List.mem_append.mp hc with h1 | h1
        · exact Or.inl h1
        · right
          have h2 : c = (q0, 1) := List.mem_singleton.mp h1
          rw [h2]
          exact hne
    · refine ⟨by simp [storeStep, ha, hv, h0], by simp [storeStep, ha, hv, h0],
        by simp [storeStep, ha, hv, h0], ?_⟩
      intro c hc
      have hcalls : (storeStep s (Ev.commit q)).calls = s.calls := by
        simp [storeStep, ha, hv, h0]
      exact Or.inl (hcalls ▸ hc)
  have hfire : ∀ t : StoreState, t.pendingBadInput = true →
      (storeStep t Ev.badFire).error = some badInputError := by
    intro t ht
    simp [storeStep, ht]
  exact ⟨hstep.1, hstep.2.1, hstep.2.2.1, hfire _ hstep.2.2.1, by decide, hstep.2.2.2⟩

/-- Claim C6 witness: the amended theorem applied to a store holding the
valid query abc and the committed too-short query ab. -/
theorem C6_witness :
    (storeStep { initState with lastValid := some ("abc") } (Ev.commit ("ab"))).pendingBadInput
      = true ∧
    (storeStep (storeStep { initState with lastValid := some ("abc") } (Ev.commit ("ab")))
      Ev.badFire).error = some badInputError := by
  have h := C6_theorem { initState with lastValid := some ("abc") } ("ab") (by decide) (by decide)
    (by
      intro q0 h0
      have h1 : (some ("abc") : Option String) = some q0 := h0
      have h2 : q0 = "abc" := (Option.some.inj h1).symm
      rw [h2]
      decide)
  exact ⟨h.2.2.1, h.2.2.2.1⟩

/-- Claim C7, counterexample: from a state with an active BadInput error and
two loaded pages, committing the empty query clears the error at once, but it
also re-fires a page-1 search of the last valid query, whose success shrinks
the window from two pages to one, so the window is not left untouched. -/
theorem C7_counterexample :
    (runEvents [Ev.raw ("abc"), Ev.commit ("abc"), Ev.freshOk ("abc") 1 ⟨1, 4, [10]⟩,
        Ev.more, Ev.moreOk ("abc") 2 ⟨2, 4, [20]⟩, Ev.raw ("ab"), Ev.commit ("ab"),
        Ev.badFire]).error = some badInputError ∧
    (runEvents [Ev.raw ("abc"), Ev.commit ("abc"), Ev.freshOk ("abc") 1 ⟨1, 4, [10]⟩,
        Ev.more, Ev.moreOk ("abc") 2 ⟨2, 4, [20]⟩, Ev.raw ("ab"), Ev.commit ("ab"),
        Ev.badFire]).window = [⟨1, 4, [10]⟩, ⟨2, 4, [20]⟩] ∧
    (runEvents [Ev.raw ("abc"), Ev.commit ("abc"), Ev.freshOk ("abc") 1 ⟨1, 4, [10]⟩,
        Ev.more, Ev.moreOk ("abc") 2 ⟨2, 4, [20]⟩, Ev.raw ("ab"), Ev.commit ("ab"),
        Ev.badFire, Ev.raw (""), Ev.commit ("")]).error = none ∧
    (runEvents [Ev.raw ("abc"), Ev.commit ("abc"), Ev.freshOk ("abc") 1 ⟨1, 4, [10]⟩,
        Ev.more, Ev.moreOk ("abc") 2 ⟨2, 4, [20]⟩, Ev.raw ("ab"), Ev.commit ("ab"),
        Ev.badFire, Ev.raw (""), Ev.commit (""), Ev.freshOk ("abc") 1 ⟨1, 4, [10]⟩]).window
      = [⟨1, 4, [10]⟩] ∧
    ([⟨1, 4, [10]⟩] : List MoviesPage) ≠ [⟨1, 4, [10]⟩, ⟨2, 4, [20]⟩] := by decide

/-- Claim C7 (amended): with an active BadInput error, a committed empty
query clears the error at once (no delayed error remains scheduled) and the
commit itself leaves the window untouched; when no valid query was previously
committed nothing else happens, but when one was, the empty commit
re-triggers a page-1 search of that previous valid query, whose later success
replaces the window. -/
theorem C7_theorem :
    ∀ s : StoreState,
      s.error = some badInputError →
        (storeStep s (Ev.commit (""))).error = none ∧
        (storeStep s (Ev.commit (""))).pendingBadInput = false ∧
        (storeStep s (Ev.commit (""))).window = s.window ∧
        (s.freshAlive = true → s.lastValid = none →
          (storeStep s (Ev.commit (""))).calls = s.calls) ∧
        (∀ q0 : String, s.freshAlive = true → s.lastValid = some q0 →
          (storeStep s (Ev.commit (""))).calls = s.calls ++ [(q0, 1)]) := by
  intro s _
  have hv : isQueryValid ("") = false := by decide
  refine ⟨?_, ?_, ?_, ?_, ?_⟩
  · by_cases ha : s.freshAlive = true <;> cases hl : s.lastValid <;>
      simp [storeStep, ha, hv, hl]
  · by_cases ha : s.freshAlive = true <;> cases hl : s.lastValid <;>
      simp [storeStep, ha, hv, hl]
  · by_cases ha : s.freshAlive = true <;> cases hl : s.lastValid <;>
      simp [storeStep, ha, hv, hl]
  · intro ha hl
    simp [storeStep, ha, hv, hl]
  · intro q0 ha hl
    simp [storeStep, ha, hv, hl]

/-- Claim C7 witness: the amended theorem applied to a store with an active
BadInput error, once with no previous valid query and once with one. -/
theorem C7_witness :
    (storeStep { initState with error := some badInputError } (Ev.commit (""))).error = none ∧
    (storeStep { initState with error := some badInputError } (Ev.commit (""))).calls
      = initState.calls ∧
    (storeStep { initState with error := some badInputError, lastValid := some ("abc") }
      (Ev.commit (""))).calls = initState.calls ++ [("abc", 1)] := by
  have h1 := C7_theorem { initState with error := some badInputError } rfl
  have h2 := C7_theorem { initState with error := some badInputError, lastValid := some ("abc") } rfl
  exact ⟨h1.1, h1.2.2.2.1 rfl rfl, h2.2.2.2.2 ("abc") rfl rfl⟩

/-- Claim C8: every applied failure of either remote pipeline sets the fixed
ServerError, appends the corresponding log line for the underlying cause, and
leaves the window unchanged; the transition is total, so no exception escapes
to the view layer. -/
theorem C8_theorem :
    (∀ (s : StoreState) (q : String) (n : Int),
      s.freshAlive = true → s.freshReq = some (q, n) →
        (storeStep s (Ev.freshErr q n)).error = some SERVER_ERROR ∧
        (storeStep s (Ev.freshErr q n)).window = s.window ∧
        (storeStep s (Ev.freshErr q n)).log = s.log ++ ["Failed getting movies: "]) ∧
    (∀ (s : StoreState) (q : String) (n : Int),
      s.moreAlive = true → s.moreReq = some (q, n) →
        (storeStep s (Ev.moreErr q n)).error = some SERVER_ERROR ∧
        (storeStep s (Ev.moreErr q n)).window = s.window ∧
        (storeStep s (Ev.moreErr q n)).log = s.log ++ ["Failed getting more movies for page: "]) ∧
    SERVER_ERROR.message = "Oops, something went wrong. Please try again later." ∧
    SERVER_ERROR.type = MovieSearchErrorType.ServerError := by
  refine ⟨?_, ?_, by decide, by decide⟩
  · intro s q n ha hr
    simp [storeStep, ha, hr]
  · intro s q n ha hr
    simp [storeStep, ha, hr]

/-- Claim C8 witness: the theorem applied to concrete failing calls of both
pipelines. -/
theorem C8_witness :
    (storeStep { initState with freshReq := some ("abc", 1) }
      (Ev.freshErr ("abc") 1)).error = some SERVER_ERROR ∧
    (storeStep { initState with moreReq := some ("abc", 2) }
      (Ev.moreErr ("abc") 2)).window = initState.window := by
  exact ⟨(C8_theorem.1 { initState with freshReq := some ("abc", 1) } ("abc") 1 rfl rfl).1,
    (C8_theorem.2.1 { initState with moreReq := some ("abc", 2) } ("abc") 2 rfl rfl).2.1⟩

/-- Concatenating windows concatenates their flattened item lists. -/
theorem movies_append (w1 w2 : List MoviesPage) :
    movies (w1 ++ w2) = movies w1 ++ movies w2 := by
  simp [movies]

/-- The last page number of a window extended by one page is the page number
of the new page. -/
theorem lastOfCurrentPages_concat (w : List MoviesPage) (p : MoviesPage) :
    lastOfCurrentPages (w ++ [p]) = some p.page := by
  simp [lastOfCurrentPages, currentPages]

/-- Page numbers of the pages an echoing client returns for rounds above k:
the consecutive integers from k+1. -/
theorem currentPages_expectedPages (client : String → Int → MoviesPage) (q : String)
    (hecho : ∀ m : Int, (client q m).page = m) :
    ∀ (n : Nat) (k : Int), currentPages (expectedPages client q k n) = pageRange (k + 1) n := by
  intro n
  induction n with
  | zero => intro k; rfl
  | succ m ih =>
    intro k
    rw [expectedPages, pageRange]
    show (client q (k + 1)).page :: currentPages (expectedPages client q (k + 1) m)
      = (k + 1) :: pageRange (k + 1 + 1) m
    rw [hecho (k + 1), ih (k + 1)]

/-- One load-more round from a live state with a raw query and a loaded
window: the round issues the call for the page after the last one and appends
the returned page. -/
theorem loadMoreRounds_succ (client : String → Int → MoviesPage) (q : String)
    (s : StoreState) (k : Int) (n : Nat)
    (hal : s.moreAlive = true) (hraw : s.lastRaw = some q)
    (hlast : lastOfCurrentPages s.window = some k) :
    loadMoreRounds client s (n + 1)
      = loadMoreRounds client { s with window := s.window ++ [client q (k + 1)], moreArmed := true, moreReq := none, calls := s.calls ++ [(q, k + 1)] } n := by
  have h1 : storeStep s Ev.more
      = { s with moreArmed := true, moreReq := some (q, k + 1), calls := s.calls ++ [(q, k + 1)] } := by
    simp [storeStep, hal, hraw, hlast]
  have h2 : storeStep { s with moreArmed := true, moreReq := some (q, k + 1), calls := s.calls ++ [(q, k + 1)] } (Ev.moreOk q (k + 1) (client q (k + 1)))
      = { s with window := s.window ++ [client q (k + 1)], moreArmed := true, moreReq := none, calls := s.calls ++ [(q, k + 1)] } := by
    simp [storeStep, hal]
  rw [loadMoreRounds, h1]
  dsimp only
  rw [h2]

/-- Window and call trace of N successive successful load-more rounds: the
window grows by the pages the client returns for k+1 through k+N, and exactly
one call per round is issued, for those same pages in order. -/
theorem loadMoreRounds_spec (client : String → Int → MoviesPage) (q : String) :
    ∀ (N : Nat) (s : StoreState) (k : Int),
      s.moreAlive = true → s.lastRaw = some q →
      (∀ m : Int, (client q m).page = m) →
      lastOfCurrentPages s.window = some k →
        (loadMoreRounds client s N).window = s.window ++ expectedPages client q k N ∧
        (loadMoreRounds client s N).calls
          = s.calls ++ (pageRange (k + 1) N).map (fun m => (q, m)) := by
  intro N
  induction N with
  | zero => intro s k _ _ _ _; simp [loadMoreRounds, expectedPages, pageRange]
  | succ n ih =>
    intro s k hal hraw hecho hlast
    rw [loadMoreRounds_succ client q s k n hal hraw hlast]
    have h3 := ih { s with window := s.window ++ [client q (k + 1)], moreArmed := true, moreReq := none, calls := s.calls ++ [(q, k + 1)] } (k + 1) hal hraw hecho
      (by rw [lastOfCurrentPages_concat, hecho (k + 1)])
    rcases h3 with ⟨hw, hc⟩
    constructor
    · rw [hw, expectedPages]
      simp [List.append_assoc]
    · rw [hc, pageRange]
      simp [List.append_assoc]

/-- Claim C3, counterexample: after a load-more remote failure, the load-more
subscription has terminated, so a further loadMore invocation from a state
with the current query abc and the window holding page 1 issues no remote
call at all, against the claimed exactly-one-call guarantee. -/
theorem C3_counterexample :
    (runEvents [Ev.raw ("abc"), Ev.commit ("abc"), Ev.freshOk ("abc") 1 ⟨1, 4, [10]⟩,
        Ev.more, Ev.moreErr ("abc") 2]).calls = [("abc", 1), ("abc", 2)] ∧
    (runEvents [Ev.raw ("abc"), Ev.commit ("abc"), Ev.freshOk ("abc") 1 ⟨1, 4, [10]⟩,
        Ev.more, Ev.moreErr ("abc") 2]).lastRaw = some ("abc") ∧
    (runEvents [Ev.raw ("abc"), Ev.commit ("abc"), Ev.freshOk ("abc") 1 ⟨1, 4, [10]⟩,
        Ev.more, Ev.moreErr ("abc") 2]).window = [⟨1, 4, [10]⟩] ∧
    (runEvents [Ev.raw ("abc"), Ev.commit ("abc"), Ev.freshOk ("abc") 1 ⟨1, 4, [10]⟩,
        Ev.more, Ev.moreErr ("abc") 2, Ev.more]).calls = [("abc", 1), ("abc", 2)] := by decide

/-- Claim C3 (amended): provided the load-more subscription has not been
terminated by an earlier failure and a setQuery has occurred, each loadMore
invocation issues exactly one remote call, for the latest raw query text and
the page after the last window page (page 2 on an empty window); an applied
successful response appends the returned page without removing any; and from
a window holding page 1, N successive successful rounds against a client that
echoes the requested page numbers yield the window of the original page
followed by the fetched pages for 2 through N+1, with page numbers exactly
1 through N+1 and items the ordered concatenation of all N+1 pages. -/
theorem C3_theorem :
    (∀ (s : StoreState) (q : String),
      s.moreAlive = true → s.lastRaw = some q →
        (storeStep s Ev.more).calls
          = s.calls ++ [(q, (lastOfCurrentPages s.window).getD 1 + 1)] ∧
        (storeStep s Ev.more).window = s.window) ∧
    (∀ (s : StoreState) (q : String) (n : Int) (p : MoviesPage),
      s.moreAlive = true → s.moreReq = some (q, n) →
        (storeStep s (Ev.moreOk q n p)).window = s.window ++ [p]) ∧
    (∀ (client : String → Int → MoviesPage) (q : String) (N : Nat) (s : StoreState)
        (p1 : MoviesPage),
      s.moreAlive = true → s.lastRaw = some q →
      (∀ m : Int, (client q m).page = m) →
      s.window = [p1] → p1.page = 1 →
        (loadMoreRounds client s N).window = s.window ++ expectedPages client q 1 N ∧
        currentPages (loadMoreRounds client s N).window = pageRange 1 (N + 1) ∧
        movies (loadMoreRounds client s N).window
          = movies s.window ++ movies (expectedPages client q 1 N) ∧
        (loadMoreRounds client s N).calls
          = s.calls ++ (pageRange 2 N).map (fun m => (q, m))) := by
  refine ⟨?_, ?_, ?_⟩
  · intro s q hal hraw
    simp [storeStep, hal, hraw]
  · intro s q n p hal hreq
    simp [storeStep, hal, hreq]
  · intro client q N s p1 hal hraw hecho hwin hp1
    have hlast : lastOfCurrentPages s.window = some 1 := by
      rw [hwin, lastOfCurrentPages, currentPages]
      simp [hp1]
    have h := loadMoreRounds_spec client q N s 1 hal hraw hecho hlast
    rcases h with ⟨hw, hc⟩
    refine ⟨hw, ?_, ?_, ?_⟩
    · rw [hw, hwin, pageRange]
      show currentPages (p1 :: expectedPages client q 1 N) = 1 :: pageRange (1 + 1) N
      rw [currentPages, List.map_cons, hp1]
      have h4 := currentPages_expectedPages client q hecho N 1
      rw [currentPages] at h4
      rw [h4]
    · rw [hw, movies_append]
    · rw [hc]
      norm_num

/-- Claim C3 witness: the amended theorem applied to a loaded store and the
echoing client, for two successful rounds. -/
theorem C3_witness :
    (storeStep stateLoaded Ev.more).calls = [("abc", 2)] ∧
    (storeStep stateReqTwo (Ev.moreOk ("abc") 2 ⟨2, 9, [8]⟩)).window
      = [⟨1, 9, [7]⟩, ⟨2, 9, [8]⟩] ∧
    (loadMoreRounds clientEx stateLoaded 2).window
      = [⟨1, 9, [7]⟩, ⟨2, 9, [5]⟩, ⟨3, 9, [5]⟩] ∧
    currentPages (loadMoreRounds clientEx stateLoaded 2).window = [1, 2, 3] := by
  have h1 := (C3_theorem.1 stateLoaded ("abc") rfl rfl).1
  have h2 := C3_theorem.2.1 stateReqTwo ("abc") 2 ⟨2, 9, [8]⟩ rfl rfl
  have h3 := C3_theorem.2.2 clientEx ("abc") 2 stateLoaded ⟨1, 9, [7]⟩ rfl rfl
    (fun m => rfl) rfl rfl
  refine ⟨?_, ?_, ?_, ?_⟩
  · rw [h1]; rfl
  · rw [h2]; rfl
  · rw [h3.1]; rfl
  · rw [h3.2.1]; rfl

/-- Claim C9, code bug witness: a search for a first query loads page 1 with
totalPages 7; the user then types a different raw query (not yet committed)
and invokes loadMore, which fetches page 2 of the raw query, returning
totalPages 3; the resulting reachable window mixes totalPages 7 and 3 even
though the remote client returned a stable totalPages per query, so the
totalPages getter (reading only the first page) is not representative. -/
theorem C9_theorem :
    ((runEvents [Ev.raw ("abc"), Ev.commit ("abc"), Ev.freshOk ("abc") 1 ⟨1, 7, [10]⟩,
        Ev.raw ("xyz"), Ev.more, Ev.moreOk ("xyz") 2 ⟨2, 3, [20]⟩]).window).map
        (fun r => r.totalPages) = [7, 3] ∧
    totalPages (runEvents [Ev.raw ("abc"), Ev.commit ("abc"), Ev.freshOk ("abc") 1 ⟨1, 7, [10]⟩,
        Ev.raw ("xyz"), Ev.more, Ev.moreOk ("xyz") 2 ⟨2, 3, [20]⟩]).window = 7 := by decide
